import Mathlib

/-!
Verification of the SensESP chain-counter control core
(`ChainController`, `DeploymentManager`, `RetrievalManager`, `main.cpp`).

Shallow embedding conventions:
* C `float` values are modelled by the type `F` below: either NaN, one of the
  two infinities, or a finite rational.  Finite float arithmetic is modelled by
  exact rational arithmetic; `sqrtf` is modelled by an abstract function
  `sq : ℚ → ℚ` (assumed nonnegative where a theorem needs it), since real
  square roots are not rational.  NaN/Inf propagation of the C operations that
  actually occur in the source is modelled explicitly.
* `millis()` timestamps are natural numbers; `unsigned long` subtraction
  `now - start` is ℕ truncated subtraction (the source only subtracts earlier
  timestamps from later ones within one boot).
* Each C++ member function call is a pure state transformer; the sensor and
  clock values it reads during one call are packaged in an environment record
  passed to the transformer (one call observes one snapshot).
-/

/-- Model of a C `float` value: NaN, +inf, -inf, or a finite rational. -/
inductive F where
  | nan  : F
  | inf  : F
  | ninf : F
  | val  : ℚ → F
deriving DecidableEq, Repr

namespace F

/-- C `isnan`. -/
def isnanB : F → Bool
  | .nan => true
  | _ => false

/-- C `isinf` (true for both infinities). -/
def isinfB : F → Bool
  | .inf => true
  | .ninf => true
  | _ => false

/-- C `pow(x, 2)` on floats. -/
def sqF : F → F
  | .nan => .nan
  | .inf => .inf
  | .ninf => .inf
  | .val x => .val (x ^ 2)

/-- C float subtraction `a - b` with IEEE NaN/Inf propagation. -/
def subF : F → F → F
  | .nan, _ => .nan
  | _, .nan => .nan
  | .inf, .inf => .nan
  | .inf, _ => .inf
  | .ninf, .ninf => .nan
  | .ninf, _ => .ninf
  | .val _, .inf => .ninf
  | .val _, .ninf => .inf
  | .val a, .val b => .val (a - b)

/-- C `sqrtf` on floats (NaN on negative arguments), with the finite
nonnegative case delegated to the abstract model `sq` of the real sqrt. -/
def sqrtF (sq : ℚ → ℚ) : F → F
  | .nan => .nan
  | .inf => .inf
  | .ninf => .nan
  | .val x => if x < 0 then .nan else .val (sq x)

/-- IEEE `a >= b` as a Bool: false whenever either side is NaN. -/
def geB : F → F → Bool
  | .nan, _ => false
  | _, .nan => false
  | .inf, _ => true
  | .ninf, .ninf => true
  | .ninf, _ => false
  | .val _, .inf => false
  | .val _, .ninf => true
  | .val a, .val b => decide (a ≥ b)

end F

/-! ## ChainController: catenary physics (ChainController.cpp lines 11-35, 504-587) -/

namespace CC

/-- `CHAIN_WEIGHT_PER_METER_KG` (ChainController.h line 117). -/
def CHAIN_WEIGHT_PER_METER_KG : ℚ := 22/10

/-- `GRAVITY` (ChainController.h line 118). -/
def GRAVITY : ℚ := 981/100

/-- `BOAT_WINDAGE_AREA_M2` (ChainController.h line 119). -/
def BOAT_WINDAGE_AREA_M2 : ℚ := 15

/-- `AIR_DENSITY` (ChainController.h line 120). -/
def AIR_DENSITY : ℚ := 1225/1000

/-- `DRAG_COEFFICIENT` (ChainController.h line 121). -/
def DRAG_COEFFICIENT : ℚ := 12/10

/-- `PAUSE_SLACK_M` (ChainController.h line 73). -/
def PAUSE_SLACK_M : ℚ := 1/5

/-- `RESUME_SLACK_M` (ChainController.h line 74). -/
def RESUME_SLACK_M : ℚ := 1

/-- `SLACK_COOLDOWN_MS` (ChainController.h line 75). -/
def SLACK_COOLDOWN_MS : ℕ := 3000

/-- `BOW_HEIGHT_M` (ChainController.h line 76). -/
def BOW_HEIGHT_M : ℚ := 2

/-- `FINAL_PULL_THRESHOLD_M` (ChainController.h line 77). -/
def FINAL_PULL_THRESHOLD_M : ℚ := 3

/-- `ChainController::estimateHorizontalForce` (ChainController.cpp lines
504-529).  The wind-speed listener value is the argument; invalid readings
(NaN/Inf/negative) fall back to 10 knots = 10/1.944 m/s.  Result is the wind
drag force plus a 30 N baseline, clamped to [30, 2000]. -/
def estimateHorizontalForce (windSpeed : F) : ℚ :=
  let ws : ℚ :=
    match windSpeed with
    | .val w => if w < 0 then 10 / (1944/1000) else w
    | _ => 10 / (1944/1000)
  let windForce := (1/2) * AIR_DENSITY * DRAG_COEFFICIENT * BOAT_WINDAGE_AREA_M2 * ws ^ 2
  let totalForce := windForce + 30
  max 30 (min 2000 totalForce)

/-- `ChainController::computeCatenaryReductionFactor` (ChainController.cpp
lines 531-587).  All callers in the source pass finite arguments, so the
function is modelled over ℚ.  `sq` models `sqrtf`.  (In the division-by-zero
corner `straightLineDistance = 0`, C produces NaN/Inf and the `fmax`/`fmin`
clamp then yields a value in [0.80, 0.99]; the rational model's `x / 0 = 0`
convention also lands the clamp inside [0.80, 0.99], which is the only fact
the theorems use about that corner.) -/
def computeCatenaryReductionFactor (sq : ℚ → ℚ) (chainLength anchorDepth horizontalForce : ℚ) : ℚ :=
  let w := CHAIN_WEIGHT_PER_METER_KG * GRAVITY
  if horizontalForce < 50 then
    let scopeRatio := chainLength / max anchorDepth 1
    if scopeRatio < 3 then 9/10
    else if scopeRatio < 5 then 85/100
    else 8/10
  else
    let straightLineDistance := sq (chainLength ^ 2 - anchorDepth ^ 2)
    let catenarySagReduction := (w * chainLength ^ 2) / (8 * horizontalForce)
    let actualHorizontalDistance := straightLineDistance - catenarySagReduction
    let reductionFactor := actualHorizontalDistance / straightLineDistance
    max (8/10) (min (99/100) reductionFactor)

/-- `ChainController::computeTargetHorizontalDistance` (ChainController.cpp
lines 11-35).  Guards NaN/Inf inputs and a negative sqrt argument by returning
0; otherwise multiplies the straight-line distance `sq (L² - D²)` by the
catenary reduction factor.  The wind listener reading consumed by
`estimateHorizontalForce` is passed as `windSpeed`. -/
def computeTargetHorizontalDistance (sq : ℚ → ℚ) (chainLength depth windSpeed : F) : F :=
  match chainLength, depth with
  | .val L, .val D =>
    let arg := L ^ 2 - D ^ 2
    if arg < 0 then .val 0
    else
      let horizontalForce := estimateHorizontalForce windSpeed
      let straightLineDistance := sq arg
      let reductionFactor := computeCatenaryReductionFactor sq L D horizontalForce
      .val (straightLineDistance * reductionFactor)
  | _, _ => .val 0

end CC

/-! ## DeploymentManager: catenary helpers (DeploymentManager.cpp lines 163-253) -/

namespace DM

/-- `DeploymentManager::computeTargetHorizontalDistance` (DeploymentManager.cpp
lines 163-165): `sqrt(pow(chainLength, 2) - pow(anchorDepth, 2))` with no
NaN/Inf guard and no reduction factor.  C float semantics: `sqrt` of a
negative argument is NaN. -/
def computeTargetHorizontalDistance (sq : ℚ → ℚ) (chainLength anchorDepth : F) : F :=
  F.sqrtF sq (F.subF (F.sqF chainLength) (F.sqF anchorDepth))

/-- `DeploymentManager::estimateHorizontalForce` (DeploymentManager.cpp lines
167-195); identical formula to the ChainController version. -/
def estimateHorizontalForce (windSpeed : F) : ℚ :=
  CC.estimateHorizontalForce windSpeed

/-- `DeploymentManager::computeCatenaryReductionFactor` (DeploymentManager.cpp
lines 197-253); identical formula to the ChainController version. -/
def computeCatenaryReductionFactor (sq : ℚ → ℚ) (chainLength anchorDepth horizontalForce : ℚ) : ℚ :=
  CC.computeCatenaryReductionFactor sq chainLength anchorDepth horizontalForce

end DM

/-! ## ChainController: actuator state machine (ChainController.cpp lines 76-344)

The controller owns two relay outputs (`digitalWrite(upRelayPin_, ...)` and
`digitalWrite(downRelayPin_, ...)`, modelled as the Bool fields `up` / `down`,
`true` = energized), a `ChainState`, the current move's bookkeeping, and the
two calibrated speeds.  `min_length_`, `max_length_`, `stop_before_max_` are
constructor parameters, modelled by `CCParams`.  One member-function call
observes one `CCEnv` snapshot: `e.now` is `millis()`, `e.pos` is
`accumulator_->get()` (also the `current_pos` argument of `control`),
`e.depth` is `getCurrentDepth()` and `e.slack` is `horizontalSlack_->get()`. -/

/-- `ChainState` (ChainController.h lines 10-14). -/
inductive ChainState where
  | idle
  | lowering
  | raising
deriving DecidableEq, Repr

namespace CC

/-- Constructor parameters `min_length_`, `max_length_`, `stop_before_max_`. -/
structure CCParams where
  minLength : ℚ
  maxLength : ℚ
  stopBeforeMax : ℚ
deriving DecidableEq, Repr

/-- The mutable state of a `ChainController` object (ChainController.h lines
79-101): relay outputs, FSM state, move bookkeeping and calibrated speeds. -/
structure CCState where
  state : ChainState
  up : Bool
  down : Bool
  target : ℚ
  movementStartTime : ℕ
  moveTimeout : ℕ
  startPosition : ℚ
  upSpeed : ℚ
  downSpeed : ℚ
  pausedForSlack : Bool
  lastSlackActionTime : ℕ
deriving DecidableEq, Repr

/-- The readings one call observes: `millis()`, the accumulator position, the
guarded depth and the slack observable. -/
structure CCEnv where
  now : ℕ
  pos : ℚ
  depth : ℚ
  slack : ℚ
deriving DecidableEq, Repr

/-- State after the constructor (ChainController.cpp lines 41-69): both relays
written LOW, state `IDLE`, timeout defaulted to 10000 ms, speeds 1000 ms/m. -/
def init : CCState :=
  { state := .idle, up := false, down := false, target := 0,
    movementStartTime := 0, moveTimeout := 10000, startPosition := 0,
    upSpeed := 1000, downSpeed := 1000,
    pausedForSlack := false, lastSlackActionTime := 0 }

/-- `ChainController::updateTimeout` (ChainController.cpp lines 332-344):
expected time `distance × speed` plus a 5 s buffer, or the 10 s default when
speed or distance is not positive.  The C cast `(unsigned long)` truncates. -/
def updateTimeout (distance speed : ℚ) : ℕ :=
  if speed > 1/100 ∧ distance > 1/100 then
    (distance * speed).floor.toNat + 5000
  else
    10000

/-- `ChainController::calcSpeed` (ChainController.cpp lines 300-330): no-op on
`start_time = 0`; otherwise EWMA-update (α = `smoothing_factor_` = 0.2) of the
direction-appropriate speed when the move lasted ≥ 100 ms and covered ≥ 1 cm,
then reset `movement_start_time_` and `start_position_`. -/
def calcSpeed (e : CCEnv) (s : CCState) : CCState :=
  if s.movementStartTime = 0 then s
  else
    let durationMs : ℕ := e.now - s.movementStartTime
    let deltaDistance : ℚ := e.pos - s.startPosition
    let rawSpeed : ℚ := (durationMs : ℚ) / |deltaDistance|
    let newDownSpeed : ℚ :=
      if (|deltaDistance| ≥ 1/100 ∧ durationMs ≥ 100) ∧ s.state = .lowering then
        (1/5) * rawSpeed + (4/5) * s.downSpeed
      else s.downSpeed
    let newUpSpeed : ℚ :=
      if (|deltaDistance| ≥ 1/100 ∧ durationMs ≥ 100) ∧ s.state = .raising then
        (1/5) * rawSpeed + (4/5) * s.upSpeed
      else s.upSpeed
    { s with upSpeed := newUpSpeed, downSpeed := newDownSpeed,
             movementStartTime := 0, startPosition := 0 }

/-- `ChainController::stop` (ChainController.cpp lines 245-260): no-op when
already idle; otherwise de-energize both relays, finalize speed calibration,
go idle and clear the slack-pause bookkeeping. -/
def ccStop (e : CCEnv) (s : CCState) : CCState :=
  if s.state = .idle then s
  else
    let s1 := { s with up := false, down := false }
    let s2 := calcSpeed e s1
    { s2 with state := .idle, pausedForSlack := false, lastSlackActionTime := 0 }

/-- `ChainController::control` (ChainController.cpp lines 151-243). -/
def control (p : CCParams) (e : CCEnv) (s : CCState) : CCState :=
  if s.state = .idle then s
  else if s.movementStartTime = 0 then s
  else if e.now - s.movementStartTime > s.moveTimeout then ccStop e s
  else
    match s.state with
    | .idle => s
    | .lowering =>
      if e.pos ≥ s.target ∨ e.pos ≥ p.stopBeforeMax then
        let s1 := { s with down := false }
        let s2 := calcSpeed e s1
        { s2 with state := .idle }
      else
        { s with down := true }
    | .raising =>
      if e.pos ≤ s.target ∨ e.pos ≤ p.minLength then
        let s1 := { s with up := false }
        let s2 := calcSpeed e s1
        { s2 with state := .idle, pausedForSlack := false }
      else
        -- inFinalPull: chain nearly vertical, skip slack monitoring
        if e.pos ≤ e.depth + BOW_HEIGHT_M + FINAL_PULL_THRESHOLD_M then
          if ¬ s.pausedForSlack then { s with up := true } else s
        else if ¬ s.pausedForSlack ∧ e.slack < PAUSE_SLACK_M then
          if e.now - s.lastSlackActionTime ≥ SLACK_COOLDOWN_MS ∨ s.lastSlackActionTime = 0 then
            { s with up := false, pausedForSlack := true, lastSlackActionTime := e.now }
          else s
        else if s.pausedForSlack ∧ e.slack ≥ RESUME_SLACK_M then
          if e.now - s.lastSlackActionTime ≥ SLACK_COOLDOWN_MS then
            { s with up := true, pausedForSlack := false, lastSlackActionTime := e.now }
          else s
        else if ¬ s.pausedForSlack then { s with up := true }
        else s

/-- `ChainController::lowerAnchor` (ChainController.cpp lines 76-112): record
the move start, compute and clamp the absolute target (max_length_, then
stop_before_max_, then min_length_), compute the timeout from the requested
amount and the down speed, enter LOWERING, de-energize the opposite relay
FIRST, energize the down relay, then immediately run `control`. -/
def lowerAnchor (p : CCParams) (amount : ℚ) (e : CCEnv) (s : CCState) : CCState :=
  let current := e.pos
  let t0 := current + amount
  let t1 := if t0 > p.maxLength then p.maxLength else t0
  let t2 := if t1 > p.stopBeforeMax then p.stopBeforeMax else t1
  let t3 := if t2 < p.minLength then p.minLength else t2
  let s1 := { s with startPosition := current, movementStartTime := e.now,
                     target := t3,
                     moveTimeout := updateTimeout amount s.downSpeed,
                     state := .lowering,
                     up := false, down := true }
  control p e s1

/-- `ChainController::raiseAnchor` (ChainController.cpp lines 114-149): record
the move start, compute and clamp the absolute target (min_length_, then
max_length_), compute the timeout from the up speed, enter RAISING, reset the
slack-pause bookkeeping, de-energize the opposite relay FIRST, energize the up
relay, then immediately run `control`. -/
def raiseAnchor (p : CCParams) (amount : ℚ) (e : CCEnv) (s : CCState) : CCState :=
  let current := e.pos
  let t0 := current - amount
  let t1 := if t0 < p.minLength then p.minLength else t0
  let t2 := if t1 > p.maxLength then p.maxLength else t1
  let s1 := { s with startPosition := current, movementStartTime := e.now,
                     target := t2,
                     moveTimeout := updateTimeout amount s.upSpeed,
                     state := .raising,
                     pausedForSlack := false, lastSlackActionTime := 0,
                     down := false, up := true }
  control p e s1

/-- One externally triggered call into the controller: a `lowerAnchor` or
`raiseAnchor` command, a position push into `control`, or a `stop`. -/
inductive CCEvent where
  | lowerCmd (amount : ℚ)
  | raiseCmd (amount : ℚ)
  | controlTick
  | stopCmd
deriving DecidableEq, Repr

/-- Dispatch one call. -/
def ccStep (p : CCParams) (ev : CCEvent) (e : CCEnv) (s : CCState) : CCState :=
  match ev with
  | .lowerCmd a => lowerAnchor p a e s
  | .raiseCmd a => raiseAnchor p a e s
  | .controlTick => control p e s
  | .stopCmd => ccStop e s

/-- Run a sequence of calls, each with its environment snapshot. -/
def ccRun (p : CCParams) : List (CCEvent × CCEnv) → CCState → CCState
  | [], s => s
  | (ev, e) :: rest, s => ccRun p rest (ccStep p ev e s)

/-- The relay interlock invariant: the two relays are never both energized,
and an active move has its opposite relay de-energized. -/
def RelayInv (s : CCState) : Prop :=
  (s.state = .lowering → s.up = false) ∧
  (s.state = .raising → s.down = false) ∧
  ¬ (s.up = true ∧ s.down = true)

/-- `ChainController::getCurrentDepth` (ChainController.cpp lines 355-363):
NaN/Inf or a reading ≤ 0.01 is treated as "no data" and becomes 0. -/
def getCurrentDepth : F → ℚ
  | .val d => if d ≤ 1/100 then 0 else d
  | _ => 0

/-- `ChainController::getCurrentDistance` (ChainController.cpp lines 365-372):
same validity rule as the depth getter. -/
def getCurrentDistance : F → ℚ
  | .val d => if d ≤ 1/100 then 0 else d
  | _ => 0

/-- `ChainController::getTideHeightNow` / `getTideHeightHigh`
(ChainController.cpp lines 374-388): NaN/Inf becomes 0. -/
def getTideHeight : F → ℚ
  | .val t => t
  | _ => 0

/-- `ChainController::getTideAdjustedDepth` (ChainController.cpp lines
390-405): raw depth when both tide readings are unavailable, otherwise
`max 0 (depth - tideNow + tideHigh)`. -/
def getTideAdjustedDepth (depth tideNow tideHigh : F) : ℚ :=
  let currentDepth := getCurrentDepth depth
  let tn := getTideHeight tideNow
  let th := getTideHeight tideHigh
  if tn = 0 ∧ th = 0 then currentDepth
  else max 0 (currentDepth - tn + th)

end CC

/-- C float multiplication of a float by a finite factor (used for
`computeTargetHorizontalDistance(...) * reductionFactor` in
`DeploymentManager::start`; the factors there are in [0.80, 0.99]). -/
def F.mulQ : F → ℚ → F
  | .nan, _ => .nan
  | .inf, r => if r > 0 then .inf else if r < 0 then .ninf else .nan
  | .ninf, r => if r > 0 then .ninf else if r < 0 then .inf else .nan
  | .val x, r => .val (x * r)


/-! ## DeploymentManager: deployment FSM (DeploymentManager.cpp lines 31-106, 391-594)

The speed-measurement EWMA runs in its own periodic callback; the stage logic
reads its smoothed output `ewmaDistance`, which is therefore an input
(`DMEnv.ewmaDistance`) of `updateDeployment`, not recomputed by it.  The
deploy-pulse callback (`startDeployPulse`) only commands the actuator and
reschedules itself; it never changes `currentStage`, so only its
scheduled/cancelled status (`pulseScheduled`, i.e. `deployPulseEvent !=
nullptr`) is tracked here. -/

namespace DM

/-- `DeploymentManager::Stage` (DeploymentManager.h lines 30-43). -/
inductive Stage where
  | idle
  | drop
  | waitTight
  | holdDrop
  | deploy30
  | wait30
  | hold30
  | deploy75
  | wait75
  | hold75
  | deploy100
  | complete
deriving DecidableEq, Repr

/-- Position of a stage in the deployment order. -/
def Stage.idx : Stage → ℕ
  | .idle => 0
  | .drop => 1
  | .waitTight => 2
  | .holdDrop => 3
  | .deploy30 => 4
  | .wait30 => 5
  | .hold30 => 6
  | .deploy75 => 7
  | .wait75 => 8
  | .hold75 => 9
  | .deploy100 => 10
  | .complete => 11

/-- The mutable state of a `DeploymentManager` object (DeploymentManager.h
lines 44-92) restricted to the fields the stage logic reads or writes. -/
structure DMState where
  currentStage : Stage
  isRunning : Bool
  dropInitiated : Bool
  commandIssued : Bool
  measuring : Bool
  targetDropDepth : ℚ
  anchorDepth : ℚ
  totalChainLength : ℚ
  chain30 : ℚ
  chain75 : ℚ
  targetDistanceInit : F
  targetDistance30 : F
  targetDistance75 : F
  currentStageTargetLength : ℚ
  stageStartTime : ℕ
  updateScheduled : Bool
  pulseScheduled : Bool
  accumulatedDeployDemand : ℚ
deriving DecidableEq, Repr

/-- State after the constructor (DeploymentManager.cpp lines 6-25). -/
def dmInit : DMState :=
  { currentStage := .idle, isRunning := false, dropInitiated := false,
    commandIssued := false, measuring := false,
    targetDropDepth := 0, anchorDepth := 0, totalChainLength := 0,
    chain30 := 0, chain75 := 0,
    targetDistanceInit := F.val 0, targetDistance30 := F.val 0,
    targetDistance75 := F.val 0,
    currentStageTargetLength := 0, stageStartTime := 0,
    updateScheduled := false, pulseScheduled := false,
    accumulatedDeployDemand := 0 }

/-- `DeploymentManager::isAutoAnchorValid` (DeploymentManager.cpp lines
586-594): NaN/Inf depth or depth outside [3, 45] m is invalid. -/
def isAutoAnchorValid (depth : F) : Bool :=
  match depth with
  | .val d => if d < 3 then false else if d > 45 then false else true
  | _ => false

/-- `DeploymentManager::transitionTo` (DeploymentManager.cpp lines 578-584). -/
def transitionTo (newStage : Stage) (s : DMState) : DMState :=
  if s.currentStage ≠ newStage then
    { s with currentStage := newStage, commandIssued := false }
  else s

/-- `DeploymentManager::stop` (DeploymentManager.cpp lines 86-100): cancel the
tick and pulse events, clear the accumulated demand, stop the speed
measurement, and revert to IDLE. -/
def dmStop (s : DMState) : DMState :=
  if ¬ s.isRunning then s
  else
    { s with isRunning := false, updateScheduled := false,
             pulseScheduled := false, accumulatedDeployDemand := 0,
             measuring := false, currentStage := .idle }

/-- `DeploymentManager::start` (DeploymentManager.cpp lines 31-84): refuse when
already running or when `isAutoAnchorValid` fails; otherwise compute the
deployment plan from the raw depth listener reading, cap `totalChainLength`
below by 10 m and `anchorDepth` below by 0, reset the stage to DROP and
schedule the update tick.  (`start()` takes no parameters; the scope factor is
the literal 5.)  The `windSpeed` argument is the apparent-wind listener value
read by `estimateHorizontalForce`. -/
def start (sq : ℚ → ℚ) (depth windSpeed : F) (s : DMState) : DMState :=
  if s.isRunning then s
  else if isAutoAnchorValid depth = false then s
  else
    match depth with
    | F.val currentDepth =>
      let targetDropDepth := currentDepth + 4
      let anchorDepth0 := targetDropDepth - 2
      let totalChainLength0 := 5 * (targetDropDepth - 2)
      let chain30v := (40/100) * totalChainLength0
      let chain75v := (80/100) * totalChainLength0
      let force := estimateHorizontalForce windSpeed
      let tdInit := computeTargetHorizontalDistance sq (F.val targetDropDepth) (F.val anchorDepth0)
      let rf30 := computeCatenaryReductionFactor sq chain30v anchorDepth0 force
      let rf75 := computeCatenaryReductionFactor sq chain75v anchorDepth0 force
      let td30 := F.mulQ (computeTargetHorizontalDistance sq (F.val chain30v) (F.val anchorDepth0)) rf30
      let td75 := F.mulQ (computeTargetHorizontalDistance sq (F.val chain75v) (F.val anchorDepth0)) rf75
      let totalChainLength1 := if totalChainLength0 < 10 then 10 else totalChainLength0
      let anchorDepth1 := if anchorDepth0 < 0 then 0 else anchorDepth0
      { s with isRunning := true,
               targetDropDepth := targetDropDepth,
               anchorDepth := anchorDepth1,
               totalChainLength := totalChainLength1,
               chain30 := chain30v, chain75 := chain75v,
               targetDistanceInit := tdInit,
               targetDistance30 := td30, targetDistance75 := td75,
               currentStage := .drop, dropInitiated := false,
               currentStageTargetLength := 0,
               measuring := true, accumulatedDeployDemand := 0,
               updateScheduled := true }
    | _ => s

/-- An actuator command issued by the deployment FSM. -/
inductive DMCmd where
  | lowerBy (amount : ℚ)
deriving DecidableEq, Repr

/-- The readings one `updateDeployment` tick observes: `millis()`, the chain
length, the smoothed distance-from-bow EWMA, and `chainController->isActive()`. -/
structure DMEnv where
  now : ℕ
  chainLength : ℚ
  ewmaDistance : F
  chainActive : Bool
deriving DecidableEq, Repr

/-- `DeploymentManager::updateDeployment` (DeploymentManager.cpp lines
391-576): one tick of the deployment FSM; returns the new state and the
actuator command issued during the tick, if any. -/
def updateDeployment (e : DMEnv) (s : DMState) : DMState × Option DMCmd :=
  if ¬ s.isRunning then (s, none)
  else
    match s.currentStage with
    | .idle => (s, none)
    | .drop =>
      if ¬ s.commandIssued then
        if e.chainLength < s.targetDropDepth then
          if s.targetDropDepth - e.chainLength > 1/100 then
            ({ s with currentStageTargetLength := s.targetDropDepth,
                      commandIssued := true, dropInitiated := true,
                      stageStartTime := e.now },
             some (.lowerBy (s.targetDropDepth - e.chainLength)))
          else
            ({ transitionTo .waitTight s with stageStartTime := e.now }, none)
        else
          ({ transitionTo .waitTight s with stageStartTime := e.now }, none)
      else
        if ¬ e.chainActive ∨ e.chainLength ≥ s.currentStageTargetLength then
          ({ transitionTo .waitTight s with stageStartTime := e.now }, none)
        else (s, none)
    | .waitTight =>
      if e.ewmaDistance ≠ F.val (-999) ∧ F.geB e.ewmaDistance s.targetDistanceInit = true then
        ({ transitionTo .holdDrop s with stageStartTime := e.now }, none)
      else (s, none)
    | .holdDrop =>
      if e.now - s.stageStartTime ≥ 2000 then
        ({ transitionTo .deploy30 s with currentStageTargetLength := 0 }, none)
      else (s, none)
    | .deploy30 =>
      if e.chainLength ≥ s.chain30 then
        ({ transitionTo .wait30 { s with pulseScheduled := false } with stageStartTime := e.now }, none)
      else if ¬ s.pulseScheduled then ({ s with pulseScheduled := true }, none)
      else (s, none)
    | .wait30 =>
      if e.ewmaDistance ≠ F.val (-999) ∧ F.geB e.ewmaDistance s.targetDistance30 = true then
        ({ transitionTo .hold30 s with stageStartTime := e.now }, none)
      else (s, none)
    | .hold30 =>
      if e.now - s.stageStartTime ≥ 30000 then
        ({ transitionTo .deploy75 s with currentStageTargetLength := 0 }, none)
      else (s, none)
    | .deploy75 =>
      if e.chainLength ≥ s.chain75 then
        ({ transitionTo .wait75 { s with pulseScheduled := false } with stageStartTime := e.now }, none)
      else if ¬ s.pulseScheduled then ({ s with pulseScheduled := true }, none)
      else (s, none)
    | .wait75 =>
      if e.ewmaDistance ≠ F.val (-999) ∧ F.geB e.ewmaDistance s.targetDistance75 = true then
        ({ transitionTo .hold75 s with stageStartTime := e.now }, none)
      else (s, none)
    | .hold75 =>
      if e.now - s.stageStartTime ≥ 75000 then
        ({ transitionTo .deploy100 s with currentStageTargetLength := 0 }, none)
      else (s, none)
    | .deploy100 =>
      if e.chainLength ≥ s.totalChainLength then
        (dmStop (transitionTo .complete { s with pulseScheduled := false }), none)
      else if ¬ s.pulseScheduled then ({ s with pulseScheduled := true }, none)
      else (s, none)
    | .complete => (dmStop s, none)

end DM

/-! ## RetrievalManager: retrieval FSM (RetrievalManager.cpp lines 20-270)

The RAISING pause threshold is written `PAUSE_SLACK_M` in
RetrievalManager.cpp line 227; the only constant of that name is
`ChainController::PAUSE_SLACK_M = 0.2` (ChainController.h line 73), which is
what `CC.PAUSE_SLACK_M` models. -/

namespace RM

/-- `RetrievalManager::RetrievalState` (RetrievalManager.h lines 32-38). -/
inductive RState where
  | idle
  | checkingSlack
  | raising
  | waitingForSlack
  | complete
deriving DecidableEq, Repr

/-- `COMPLETION_THRESHOLD_M` (RetrievalManager.h line 50). -/
def COMPLETION_THRESHOLD_M : ℚ := 2

/-- `FINAL_PULL_THRESHOLD_M` (RetrievalManager.h line 51). -/
def FINAL_PULL_THRESHOLD_M : ℚ := 10

/-- `RESUME_SLACK_RATIO` (RetrievalManager.h line 47). -/
def RESUME_SLACK_RATIO : ℚ := 3/10

/-- `MIN_RAISE_AMOUNT_M` (RetrievalManager.h line 48). -/
def MIN_RAISE_AMOUNT_M : ℚ := 1

/-- `COOLDOWN_AFTER_RAISE_MS` (RetrievalManager.h line 49). -/
def COOLDOWN_AFTER_RAISE_MS : ℕ := 3000

/-- The mutable state of a `RetrievalManager` object (RetrievalManager.h
lines 39-57). -/
structure RMState where
  state : RState
  running : Bool
  completed : Bool
  lastRaiseTime : ℕ
deriving DecidableEq, Repr

/-- The readings one `updateRetrieval` tick observes: `millis()`, the raw
rode / depth / slack values, and `chainController` activity. -/
structure RMEnv where
  now : ℕ
  rode : F
  depth : F
  slack : F
  chainActive : Bool
deriving DecidableEq, Repr

/-- An actuator command issued by the retrieval FSM. -/
inductive RMCmd where
  | raiseBy (amount : ℚ)
  | stopChain
deriving DecidableEq, Repr

/-- `RetrievalManager::getRodeDeployed` / `getChainSlack` (RetrievalManager.cpp
lines 81-105): NaN/Inf guarded to 0. -/
def guardNanInf : F → ℚ
  | .val q => q
  | _ => 0

/-- `RetrievalManager::getDepth` (RetrievalManager.cpp lines 107-117): the
value of `ChainController::getCurrentDepth` (already finite), re-guarded. -/
def getDepth (x : F) : ℚ :=
  CC.getCurrentDepth x

/-- `RetrievalManager::start` (RetrievalManager.cpp lines 20-44). -/
def rmStart (s : RMState) : RMState :=
  if s.running then s
  else { s with running := true, completed := false,
                state := .checkingSlack, lastRaiseTime := 0 }

/-- `RetrievalManager::updateRetrieval` (RetrievalManager.cpp lines 129-270):
one 100 ms tick of the retrieval FSM; returns the new state and the actuator
command issued during the tick, if any.  The completion path models
`transitionTo(COMPLETE); completed_ = true; stop()`, where `stop()`
(lines 46-71) reverts the state to IDLE and stops the chain if active. -/
def updateRetrieval (e : RMEnv) (s : RMState) : RMState × Option RMCmd :=
  if ¬ s.running then (s, none)
  else
    let rodeDeployed := guardNanInf e.rode
    let depth := getDepth e.depth
    let slack := guardNanInf e.slack
    match s.state with
    | .idle => (s, none)
    | .checkingSlack =>
      if rodeDeployed ≤ COMPLETION_THRESHOLD_M then
        ({ s with state := .idle, running := false, completed := true },
         if e.chainActive then some .stopChain else none)
      else if e.chainActive then (s, none)
      else if rodeDeployed < depth + FINAL_PULL_THRESHOLD_M then
        if e.now - s.lastRaiseTime < COOLDOWN_AFTER_RAISE_MS then
          ({ s with state := .waitingForSlack }, none)
        else if rodeDeployed - COMPLETION_THRESHOLD_M > 1/10 then
          ({ s with state := .raising, lastRaiseTime := e.now },
           some (.raiseBy (rodeDeployed - COMPLETION_THRESHOLD_M)))
        else (s, none)
      else
        if e.now - s.lastRaiseTime < COOLDOWN_AFTER_RAISE_MS then
          ({ s with state := .waitingForSlack }, none)
        else if slack ≥ depth * RESUME_SLACK_RATIO then
          if slack ≥ MIN_RAISE_AMOUNT_M then
            ({ s with state := .raising, lastRaiseTime := e.now },
             some (.raiseBy slack))
          else ({ s with state := .waitingForSlack }, none)
        else ({ s with state := .waitingForSlack }, none)
    | .raising =>
      if ¬ (rodeDeployed < depth + FINAL_PULL_THRESHOLD_M) ∧
          slack < CC.PAUSE_SLACK_M ∧ e.chainActive then
        ({ s with state := .waitingForSlack, lastRaiseTime := e.now },
         some .stopChain)
      else if ¬ e.chainActive then
        ({ s with state := .waitingForSlack }, none)
      else (s, none)
    | .waitingForSlack =>
      if rodeDeployed ≤ COMPLETION_THRESHOLD_M then
        ({ s with state := .checkingSlack }, none)
      else if rodeDeployed < depth + FINAL_PULL_THRESHOLD_M ∧
          e.now - s.lastRaiseTime ≥ COOLDOWN_AFTER_RAISE_MS then
        ({ s with state := .checkingSlack }, none)
      else if slack ≥ depth * RESUME_SLACK_RATIO ∧
          e.now - s.lastRaiseTime ≥ COOLDOWN_AFTER_RAISE_MS then
        ({ s with state := .checkingSlack }, none)
      else (s, none)
    | .complete => (s, none)

end RM

/-! ## main.cpp: gypsy counter handler (main.cpp lines 375-438) -/

namespace MainCpp

/-- The `counter_handler` lambda (main.cpp lines 375-438) for one `input == 1`
pulse with `ignore_input` false: reads both relay states (active-low GPIOs,
here already decoded to Bools), discards the pulse when both read energized,
decrements the accumulated length (`accumulator->set(-1)`, an `Integrator`
step of `gypsy_circum`) on a raise pulse unless that would go below 0, and
increments on a lower or free-fall pulse unless that would exceed
`max_chain`. -/
def counterPulse (gypsyCircum maxChain : ℚ) (upActive downActive : Bool) (v : ℚ) : ℚ :=
  if upActive ∧ downActive then v
  else if upActive then
    if v - gypsyCircum < 0 then v else v - gypsyCircum
  else if downActive then
    if v + gypsyCircum > maxChain then v else v + gypsyCircum
  else
    if v + gypsyCircum > maxChain then v else v + gypsyCircum

/-- A sequence of counter pulses, each with its observed relay states. -/
def runCounter (gypsyCircum maxChain : ℚ) : List (Bool × Bool) → ℚ → ℚ
  | [], v => v
  | (u, d) :: rest, v => runCounter gypsyCircum maxChain rest (counterPulse gypsyCircum maxChain u d v)

end MainCpp

/-! ## Supporting lemmas -/

namespace CC

theorem calcSpeed_relays (e : CCEnv) (s : CCState) :
    (calcSpeed e s).up = s.up ∧ (calcSpeed e s).down = s.down ∧
    (calcSpeed e s).state = s.state ∧
    (calcSpeed e s).pausedForSlack = s.pausedForSlack := by
  unfold calcSpeed
  split <;> exact ⟨rfl, rfl, rfl, rfl⟩

theorem relayInv_ccStop (e : CCEnv) (s : CCState) (h : RelayInv s) :
    RelayInv (ccStop e s) := by
  unfold ccStop
  split
  · exact h
  · obtain ⟨hu, hd, -, -⟩ := calcSpeed_relays e { s with up := false, down := false }
    refine ⟨fun _ => ?_, fun _ => ?_, fun hc => ?_⟩ <;> simp_all

theorem relayInv_control (p : CCParams) (e : CCEnv) (s : CCState) (h : RelayInv s) :
    RelayInv (control p e s) := by
  obtain ⟨hlow, hraise, hboth⟩ := h
  unfold control
  split
  · exact ⟨hlow, hraise, hboth⟩
  split
  · exact ⟨hlow, hraise, hboth⟩
  split
  · exact relayInv_ccStop e s ⟨hlow, hraise, hboth⟩
  split
  · exact ⟨hlow, hraise, hboth⟩
  -- LOWERING
  · rename_i hst
    have hup : s.up = false := hlow hst
    unfold RelayInv
    split
    · obtain ⟨hu, hd, hstate, -⟩ := calcSpeed_relays e { s with down := false }
      refine ⟨fun _ => ?_, fun _ => ?_, fun hc => ?_⟩ <;> simp_all
    · refine ⟨fun _ => ?_, fun hr => ?_, fun hc => ?_⟩ <;> simp_all
  -- RAISING
  · rename_i hst
    have hdown : s.down = false := hraise hst
    unfold RelayInv
    split
    · obtain ⟨hu, hd, hstate, -⟩ := calcSpeed_relays e { s with up := false }
      refine ⟨fun hl => ?_, fun _ => ?_, fun hc => ?_⟩ <;> simp_all
    · repeat' split
      all_goals refine ⟨fun hl => ?_, fun _ => ?_, fun hc => ?_⟩ <;> simp_all

theorem relayInv_lowerAnchor (p : CCParams) (a : ℚ) (e : CCEnv) (s : CCState) :
    RelayInv (lowerAnchor p a e s) := by
  unfold lowerAnchor
  apply relayInv_control
  refine ⟨fun _ => rfl, fun hr => ?_, fun hc => ?_⟩ <;> simp_all

theorem relayInv_raiseAnchor (p : CCParams) (a : ℚ) (e : CCEnv) (s : CCState) :
    RelayInv (raiseAnchor p a e s) := by
  unfold raiseAnchor
  apply relayInv_control
  refine ⟨fun hl => ?_, fun _ => rfl, fun hc => ?_⟩ <;> simp_all

theorem relayInv_ccStep (p : CCParams) (ev : CCEvent) (e : CCEnv) (s : CCState)
    (h : RelayInv s) : RelayInv (ccStep p ev e s) := by
  cases ev with
  | lowerCmd a => exact relayInv_lowerAnchor p a e s
  | raiseCmd a => exact relayInv_raiseAnchor p a e s
  | controlTick => exact relayInv_control p e s h
  | stopCmd => exact relayInv_ccStop e s h

theorem relayInv_ccRun (p : CCParams) (tr : List (CCEvent × CCEnv)) (s : CCState)
    (h : RelayInv s) : RelayInv (ccRun p tr s) := by
  induction tr generalizing s with
  | nil => exact h
  | cons hd tl ih => exact ih _ (relayInv_ccStep p hd.1 hd.2 s h)

end CC

namespace CC

theorem calcSpeed_target (e : CCEnv) (s : CCState) :
    (calcSpeed e s).target = s.target := by
  unfold calcSpeed
  split <;> rfl

theorem ccStop_target (e : CCEnv) (s : CCState) :
    (ccStop e s).target = s.target := by
  unfold ccStop
  split
  · rfl
  · exact calcSpeed_target e { s with up := false, down := false }

theorem control_target (p : CCParams) (e : CCEnv) (s : CCState) :
    (control p e s).target = s.target := by
  unfold control
  split
  · rfl
  split
  · rfl
  split
  · exact ccStop_target e s
  split
  · rfl
  · split
    · exact calcSpeed_target e { s with down := false }
    · rfl
  · split
    · exact calcSpeed_target e { s with up := false }
    · repeat' split
      all_goals rfl

theorem lowerAnchor_target (p : CCParams) (a : ℚ) (e : CCEnv) (s : CCState) :
    (lowerAnchor p a e s).target
      = max p.minLength (min (min p.maxLength p.stopBeforeMax) (e.pos + a)) := by
  simp only [lowerAnchor, control_target]
  split_ifs <;> simp [max_def, min_def] <;> split_ifs <;> linarith

theorem raiseAnchor_target (p : CCParams) (a : ℚ) (e : CCEnv) (s : CCState)
    (hp : p.minLength ≤ p.maxLength) :
    (raiseAnchor p a e s).target
      = max p.minLength (min p.maxLength (e.pos - a)) := by
  simp only [raiseAnchor, control_target]
  split_ifs <;> simp [max_def, min_def] <;> split_ifs <;> linarith

end CC

/-! ## Claim theorems -/

/-- C1: For every sequence of calls to `lowerAnchor`, `raiseAnchor`, `control`
and `stop` on the position actuator, starting from the constructor state, the
two relay outputs are never simultaneously energized: the opposite relay is
always de-energized before the desired relay is energized, so the forbidden
both-energized state is unreachable. -/
theorem relays_never_simultaneously_energized
    (p : CC.CCParams) (tr : List (CC.CCEvent × CC.CCEnv)) :
    ¬ ((CC.ccRun p tr CC.init).up = true ∧ (CC.ccRun p tr CC.init).down = true) := by
  have hinit : CC.RelayInv CC.init := by
    refine ⟨fun _ => rfl, fun _ => rfl, ?_⟩
    simp [CC.init]
  exact (CC.relayInv_ccRun p tr CC.init hinit).2.2

/-- C2: For every active move (state LOWERING or RAISING, with the move-start
timestamp recorded), if the elapsed time since the move started exceeds the
stored movement timeout, the very next `control()` call forces a stop
unconditionally regardless of target state: both relays are de-energized and
the actuator state returns to IDLE. -/
theorem movement_timeout_forces_stop (p : CC.CCParams) (e : CC.CCEnv) (s : CC.CCState)
    (hact : s.state ≠ ChainState.idle) (hst : s.movementStartTime ≠ 0)
    (hto : e.now - s.movementStartTime > s.moveTimeout) :
    (CC.control p e s).up = false ∧ (CC.control p e s).down = false ∧
    (CC.control p e s).state = ChainState.idle := by
  unfold CC.control
  rw [if_neg hact, if_neg hst, if_pos hto]
  unfold CC.ccStop
  rw [if_neg hact]
  obtain ⟨hu, hd, -, -⟩ := CC.calcSpeed_relays e { s with up := false, down := false }
  refine ⟨?_, ?_, rfl⟩ <;> simp_all

/-- Witness for C2 at a concrete timed-out lowering state. -/
theorem movement_timeout_forces_stop_witness :
    (({ CC.init with state := ChainState.lowering, movementStartTime := 100 } : CC.CCState).state
        ≠ ChainState.idle) ∧
    (({ CC.init with state := ChainState.lowering, movementStartTime := 100 } : CC.CCState).movementStartTime
        ≠ 0) ∧
    ((⟨20000, 5, 0, 0⟩ : CC.CCEnv).now
        - ({ CC.init with state := ChainState.lowering, movementStartTime := 100 } : CC.CCState).movementStartTime
      > ({ CC.init with state := ChainState.lowering, movementStartTime := 100 } : CC.CCState).moveTimeout) ∧
    ((CC.control ⟨2, 80, 75⟩ ⟨20000, 5, 0, 0⟩
        { CC.init with state := ChainState.lowering, movementStartTime := 100 }).up = false ∧
     (CC.control ⟨2, 80, 75⟩ ⟨20000, 5, 0, 0⟩
        { CC.init with state := ChainState.lowering, movementStartTime := 100 }).down = false ∧
     (CC.control ⟨2, 80, 75⟩ ⟨20000, 5, 0, 0⟩
        { CC.init with state := ChainState.lowering, movementStartTime := 100 }).state = ChainState.idle) :=
  ⟨by decide, by decide, by decide,
   movement_timeout_forces_stop ⟨2, 80, 75⟩ ⟨20000, 5, 0, 0⟩
     { CC.init with state := ChainState.lowering, movementStartTime := 100 }
     (by decide) (by decide) (by decide)⟩

/-- C7: Target clamping of manual moves.  With `minLength = 2`,
`maxLength = 80`, `stopBeforeMax = 75` and current position 70,
`lowerAnchor(10)` sets the absolute target to 75 (not 80); with
`minLength = 2` and current position 5, `raiseAnchor(10)` sets the target
to 2.  In general lowering clamps to [minLength, min(maxLength,
stopBeforeMax)] and raising clamps to [minLength, maxLength]. -/
theorem manual_move_target_clamping (p : CC.CCParams) (a : ℚ) (e : CC.CCEnv) (s : CC.CCState)
    (hp : p.minLength ≤ p.maxLength) :
    (CC.lowerAnchor ⟨2, 80, 75⟩ 10 ⟨1000, 70, 0, 0⟩ CC.init).target = 75 ∧
    (CC.raiseAnchor ⟨2, 80, 75⟩ 10 ⟨1000, 5, 0, 0⟩ CC.init).target = 2 ∧
    (CC.lowerAnchor p a e s).target
      = max p.minLength (min (min p.maxLength p.stopBeforeMax) (e.pos + a)) ∧
    (CC.raiseAnchor p a e s).target
      = max p.minLength (min p.maxLength (e.pos - a)) := by
  refine ⟨?_, ?_, CC.lowerAnchor_target p a e s, CC.raiseAnchor_target p a e s hp⟩
  · rw [CC.lowerAnchor_target]
    norm_num
  · rw [CC.raiseAnchor_target _ _ _ _ (by norm_num)]
    norm_num

/-- Witness for C7 at the concrete parameters of the spec's example. -/
theorem manual_move_target_clamping_witness :
    ((⟨2, 80, 75⟩ : CC.CCParams).minLength ≤ (⟨2, 80, 75⟩ : CC.CCParams).maxLength) ∧
    (CC.raiseAnchor ⟨2, 80, 75⟩ 10 ⟨1000, 5, 0, 0⟩ CC.init).target
      = max (⟨2, 80, 75⟩ : CC.CCParams).minLength
          (min (⟨2, 80, 75⟩ : CC.CCParams).maxLength
            ((⟨1000, 5, 0, 0⟩ : CC.CCEnv).pos - 10)) :=
  ⟨by norm_num,
   (manual_move_target_clamping ⟨2, 80, 75⟩ 10 ⟨1000, 5, 0, 0⟩ CC.init (by norm_num)).2.2.2⟩

namespace MainCpp

theorem counterPulse_bounds (gypsyCircum maxChain : ℚ) (u d : Bool) (v : ℚ)
    (hcirc : 0 < gypsyCircum) (h0 : 0 ≤ v) (hmax : v ≤ maxChain) :
    0 ≤ counterPulse gypsyCircum maxChain u d v ∧
    counterPulse gypsyCircum maxChain u d v ≤ maxChain := by
  unfold counterPulse
  split_ifs <;> constructor <;> linarith

theorem runCounter_bounds (gypsyCircum maxChain : ℚ) (pulses : List (Bool × Bool)) (v : ℚ)
    (hcirc : 0 < gypsyCircum) (h0 : 0 ≤ v) (hmax : v ≤ maxChain) :
    0 ≤ runCounter gypsyCircum maxChain pulses v ∧
    runCounter gypsyCircum maxChain pulses v ≤ maxChain := by
  induction pulses generalizing v with
  | nil => exact ⟨h0, hmax⟩
  | cons hd tl ih =>
    obtain ⟨hl, hr⟩ := counterPulse_bounds gypsyCircum maxChain hd.1 hd.2 v hcirc h0 hmax
    exact ih _ hl hr

end MainCpp

/-- C10: For every counter pulse processed by the gypsy counter handler with a
positive gypsy circumference, the accumulated rode length stays within
[0, maxChain] (also along any sequence of pulses); a raise pulse that would
take the length below 0 is ignored, a lower or free-fall pulse that would
exceed maxChain is ignored, and a pulse arriving while both relays read
energized is discarded without changing the count. -/
theorem counter_pulse_keeps_rode_in_range (gypsyCircum maxChain : ℚ) (u d : Bool) (v : ℚ)
    (hcirc : 0 < gypsyCircum) (h0 : 0 ≤ v) (hmax : v ≤ maxChain) :
    (0 ≤ MainCpp.counterPulse gypsyCircum maxChain u d v ∧
     MainCpp.counterPulse gypsyCircum maxChain u d v ≤ maxChain) ∧
    (∀ pulses : List (Bool × Bool),
      0 ≤ MainCpp.runCounter gypsyCircum maxChain pulses v ∧
      MainCpp.runCounter gypsyCircum maxChain pulses v ≤ maxChain) ∧
    (u = true → d = false → v - gypsyCircum < 0 →
      MainCpp.counterPulse gypsyCircum maxChain u d v = v) ∧
    (u = false → d = true → v + gypsyCircum > maxChain →
      MainCpp.counterPulse gypsyCircum maxChain u d v = v) ∧
    (u = false → d = false → v + gypsyCircum > maxChain →
      MainCpp.counterPulse gypsyCircum maxChain u d v = v) ∧
    (u = true → d = true → MainCpp.counterPulse gypsyCircum maxChain u d v = v) := by
  refine ⟨MainCpp.counterPulse_bounds gypsyCircum maxChain u d v hcirc h0 hmax,
          fun pulses => MainCpp.runCounter_bounds gypsyCircum maxChain pulses v hcirc h0 hmax,
          ?_, ?_, ?_, ?_⟩
  · intro hu hd h3
    subst hu; subst hd
    simp [MainCpp.counterPulse, h3]
  · intro hu hd h3
    subst hu; subst hd
    simp [MainCpp.counterPulse, h3]
  · intro hu hd h3
    subst hu; subst hd
    simp [MainCpp.counterPulse, h3]
  · intro hu hd
    subst hu; subst hd
    simp [MainCpp.counterPulse]

/-- Witness for C10 at a concrete configuration (0.25 m gypsy, 80 m chain). -/
theorem counter_pulse_keeps_rode_in_range_witness :
    ((0 : ℚ) < 1/4) ∧ ((0 : ℚ) ≤ 79) ∧ ((79 : ℚ) ≤ 80) ∧
    (0 ≤ MainCpp.counterPulse (1/4) 80 false true 79 ∧
     MainCpp.counterPulse (1/4) 80 false true 79 ≤ 80) :=
  ⟨by norm_num, by norm_num, by norm_num,
   (counter_pulse_keeps_rode_in_range (1/4) 80 false true 79
     (by norm_num) (by norm_num) (by norm_num)).1⟩

namespace CC

theorem reductionFactor_bounds (sq : ℚ → ℚ) (c d f : ℚ) :
    8/10 ≤ computeCatenaryReductionFactor sq c d f ∧
    computeCatenaryReductionFactor sq c d f ≤ 99/100 := by
  constructor
  · unfold computeCatenaryReductionFactor
    dsimp only
    split_ifs <;> norm_num
  · unfold computeCatenaryReductionFactor
    dsimp only
    split_ifs <;> norm_num

end CC

/-- C3 counterexample: the deployment sequencer's
`computeTargetHorizontalDistance` does NOT return 0 when `depth > chainLength`:
at `(L, D) = (3, 5)` it computes `sqrt(9 - 25)`, which is NaN, because it has
neither the NaN/Inf guard nor the negative-argument guard of the actuator's
version.  (Instantiated at the identity model of `sqrtf`; the argument is
negative, so the result is NaN for every model of `sqrtf`.) -/
theorem dm_target_distance_counterexample :
    DM.computeTargetHorizontalDistance (fun x => x) (F.val 3) (F.val 5) = F.nan ∧
    F.nan ≠ F.val 0 := by
  constructor
  · simp only [DM.computeTargetHorizontalDistance, F.sqF, F.subF, F.sqrtF]
    norm_num
  · simp

/-- C3 amended: for the actuator's `computeTargetHorizontalDistance` (with
nonnegative inputs and any nonnegative model `sq` of `sqrtf`), the result is 0
when `D > L` or when either input is NaN/Inf, and otherwise is a nonnegative
value at most `sq (L² - D²)` (the straight-line distance; the catenary
reduction factor is ≤ 0.99 < 1).  The deployment sequencer's version instead
returns the unguarded straight-line value: NaN when `D > L`, and exactly
`sq (L² - D²)` (no reduction factor) when `D ≤ L`. -/
theorem target_horizontal_distance_amended (sq : ℚ → ℚ) (hsq : ∀ x, 0 ≤ sq x)
    (L D : ℚ) (hL : 0 ≤ L) (hD : 0 ≤ D) (wind : F) :
    (D > L → CC.computeTargetHorizontalDistance sq (F.val L) (F.val D) wind = F.val 0) ∧
    (D ≤ L → ∃ r : ℚ,
      CC.computeTargetHorizontalDistance sq (F.val L) (F.val D) wind = F.val r ∧
      0 ≤ r ∧ r ≤ sq (L ^ 2 - D ^ 2)) ∧
    (∀ cl dp : F, (cl.isnanB || cl.isinfB || dp.isnanB || dp.isinfB) = true →
      CC.computeTargetHorizontalDistance sq cl dp wind = F.val 0) ∧
    (D > L → DM.computeTargetHorizontalDistance sq (F.val L) (F.val D) = F.nan) ∧
    (D ≤ L → DM.computeTargetHorizontalDistance sq (F.val L) (F.val D)
      = F.val (sq (L ^ 2 - D ^ 2))) := by
  refine ⟨?_, ?_, ?_, ?_, ?_⟩
  · intro h
    have harg : L ^ 2 - D ^ 2 < 0 := by nlinarith
    simp only [CC.computeTargetHorizontalDistance]
    rw [if_pos harg]
  · intro h
    have harg : ¬ (L ^ 2 - D ^ 2 < 0) := by nlinarith
    obtain ⟨hlo, hhi⟩ :=
      CC.reductionFactor_bounds sq L D (CC.estimateHorizontalForce wind)
    refine ⟨sq (L ^ 2 - D ^ 2)
        * CC.computeCatenaryReductionFactor sq L D (CC.estimateHorizontalForce wind),
      ?_, ?_, ?_⟩
    · simp only [CC.computeTargetHorizontalDistance]
      rw [if_neg harg]
    · exact mul_nonneg (hsq _) (le_trans (by norm_num) hlo)
    · calc sq (L ^ 2 - D ^ 2)
            * CC.computeCatenaryReductionFactor sq L D (CC.estimateHorizontalForce wind)
          ≤ sq (L ^ 2 - D ^ 2) * 1 :=
            mul_le_mul_of_nonneg_left (le_trans hhi (by norm_num)) (hsq _)
      _ = sq (L ^ 2 - D ^ 2) := mul_one _
  · intro cl dp h
    cases cl <;> cases dp <;>
      simp_all [CC.computeTargetHorizontalDistance, F.isnanB, F.isinfB]
  · intro h
    simp only [DM.computeTargetHorizontalDistance, F.sqF, F.subF, F.sqrtF]
    rw [if_pos (by nlinarith : L ^ 2 - D ^ 2 < 0)]
  · intro h
    simp only [DM.computeTargetHorizontalDistance, F.sqF, F.subF, F.sqrtF]
    rw [if_neg (by nlinarith : ¬ (L ^ 2 - D ^ 2 < 0))]

/-- Witness for the amended C3 at `sq := fun x => 0`, `L = 3`, `D = 5`. -/
theorem target_horizontal_distance_amended_witness :
    ((0 : ℚ) ≤ 3) ∧ ((0 : ℚ) ≤ 5) ∧
    ((5 : ℚ) > 3 →
      CC.computeTargetHorizontalDistance (fun _ => 0) (F.val 3) (F.val 5) (F.val 0) = F.val 0) :=
  ⟨by norm_num, by norm_num,
   (target_horizontal_distance_amended (fun _ => 0) (fun _ => le_refl 0) 3 5
     (by norm_num) (by norm_num) (F.val 0)).1⟩

/-- C4 counterexample: the retrieval FSM DOES return to a state it has left
without any external stop/reset.  From CHECKING_SLACK (cooldown still
running), one tick moves to WAITING_FOR_SLACK; on the next tick (rode now at
1 m ≤ the 2 m completion threshold) it transitions back to CHECKING_SLACK —
a revisit of a state previously left. -/
theorem retrieval_revisits_state_counterexample :
    (RM.updateRetrieval ⟨1500, F.val 50, F.val 5, F.val 0, false⟩
        ⟨RM.RState.checkingSlack, true, false, 1000⟩).1.state
      = RM.RState.waitingForSlack ∧
    (RM.updateRetrieval ⟨1600, F.val 1, F.val 5, F.val 0, false⟩
        (RM.updateRetrieval ⟨1500, F.val 50, F.val 5, F.val 0, false⟩
          ⟨RM.RState.checkingSlack, true, false, 1000⟩).1).1.state
      = RM.RState.checkingSlack := by
  constructor
  · norm_num [RM.updateRetrieval, RM.guardNanInf, RM.getDepth, CC.getCurrentDepth,
      RM.COMPLETION_THRESHOLD_M, RM.FINAL_PULL_THRESHOLD_M, RM.COOLDOWN_AFTER_RAISE_MS]
  · norm_num [RM.updateRetrieval, RM.guardNanInf, RM.getDepth, CC.getCurrentDepth,
      RM.COMPLETION_THRESHOLD_M, RM.FINAL_PULL_THRESHOLD_M, RM.COOLDOWN_AFTER_RAISE_MS]

/-- C4 amended: the deployment FSM is strictly forward.  On every tick of a
running deployment, the stage either stays put or advances to the immediate
successor in the order
Drop→WaitTight→HoldDrop→Deploy30→Wait30→Hold30→Deploy75→Wait75→Hold75→
Deploy100→Complete (so a full run visits each stage at most once, in order);
the only way back to Idle is the stop on natural completion (from Deploy100,
which passes through Complete inside the same tick, or from Complete itself).
The retrieval FSM, by contrast, cycles among its middle states by design (see
the counterexample). -/
theorem deployment_stages_strictly_forward (e : DM.DMEnv) (s : DM.DMState)
    (hrun : s.isRunning = true) :
    (DM.updateDeployment e s).1.currentStage = s.currentStage ∨
    ((DM.updateDeployment e s).1.currentStage.idx = s.currentStage.idx + 1 ∧
      (DM.updateDeployment e s).1.currentStage ≠ DM.Stage.idle) ∨
    ((DM.updateDeployment e s).1.currentStage = DM.Stage.idle ∧
      (s.currentStage = DM.Stage.deploy100 ∨ s.currentStage = DM.Stage.complete)) := by
  cases hstage : s.currentStage <;>
    simp only [DM.updateDeployment, hstage, hrun, Bool.not_true, Bool.false_eq_true,
      if_false] <;>
    split_ifs <;>
    simp_all [DM.transitionTo, DM.dmStop, DM.Stage.idx]

/-- Witness for the amended C4 at a concrete WAIT_TIGHT tick that advances. -/
theorem deployment_stages_strictly_forward_witness :
    (⟨DM.Stage.waitTight, true, false, false, false, 0, 0, 0, 0, 0,
        F.val 5, F.val 0, F.val 0, 0, 0, false, false, 0⟩ : DM.DMState).isRunning = true ∧
    ((DM.updateDeployment ⟨0, 0, F.val 6, false⟩
        ⟨DM.Stage.waitTight, true, false, false, false, 0, 0, 0, 0, 0,
          F.val 5, F.val 0, F.val 0, 0, 0, false, false, 0⟩).1.currentStage
        = DM.Stage.waitTight ∨
      ((DM.updateDeployment ⟨0, 0, F.val 6, false⟩
        ⟨DM.Stage.waitTight, true, false, false, false, 0, 0, 0, 0, 0,
          F.val 5, F.val 0, F.val 0, 0, 0, false, false, 0⟩).1.currentStage.idx
          = DM.Stage.waitTight.idx + 1 ∧
       (DM.updateDeployment ⟨0, 0, F.val 6, false⟩
        ⟨DM.Stage.waitTight, true, false, false, false, 0, 0, 0, 0, 0,
          F.val 5, F.val 0, F.val 0, 0, 0, false, false, 0⟩).1.currentStage ≠ DM.Stage.idle) ∨
      ((DM.updateDeployment ⟨0, 0, F.val 6, false⟩
        ⟨DM.Stage.waitTight, true, false, false, false, 0, 0, 0, 0, 0,
          F.val 5, F.val 0, F.val 0, 0, 0, false, false, 0⟩).1.currentStage = DM.Stage.idle ∧
       (DM.Stage.waitTight = DM.Stage.deploy100 ∨ DM.Stage.waitTight = DM.Stage.complete))) :=
  ⟨rfl,
   deployment_stages_strictly_forward ⟨0, 0, F.val 6, false⟩
     ⟨DM.Stage.waitTight, true, false, false, false, 0, 0, 0, 0, 0,
       F.val 5, F.val 0, F.val 0, 0, 0, false, false, 0⟩ rfl⟩

/-- C5 counterexample: in WAIT_TIGHT with the distance reading unavailable
(the -999 sentinel), the sequencer does NOT advance — there is no slack-based
fallback.  The wait-stage logic reads only the smoothed distance and the
stage's target distance (`DMEnv` carries no slack input at all, mirroring
DeploymentManager.cpp lines 449-458, which reference no slack variable), so
the stage stays WAIT_TIGHT regardless of how small the measured slack is. -/
theorem wait_stage_no_slack_fallback_counterexample :
    (DM.updateDeployment ⟨5000, 10, F.val (-999), false⟩
        ⟨DM.Stage.waitTight, true, false, false, false, 0, 0, 0, 0, 0,
          F.val 5, F.val 0, F.val 0, 0, 0, false, false, 0⟩).1.currentStage
      = DM.Stage.waitTight := by
  norm_num [DM.updateDeployment]

/-- C5 amended: in each deployment wait stage (WaitTight, Wait30, Wait75) the
sequencer advances to the corresponding hold stage exactly when the smoothed
distance reading is available (≠ -999) and has reached that stage's computed
target distance; when the reading is unavailable it waits indefinitely (no
slack-based fallback exists). -/
theorem deployment_wait_advance_iff_distance (e : DM.DMEnv) (s : DM.DMState)
    (hrun : s.isRunning = true) :
    (s.currentStage = DM.Stage.waitTight →
      (DM.updateDeployment e s).1.currentStage =
        (if e.ewmaDistance ≠ F.val (-999) ∧ F.geB e.ewmaDistance s.targetDistanceInit = true
         then DM.Stage.holdDrop else DM.Stage.waitTight)) ∧
    (s.currentStage = DM.Stage.wait30 →
      (DM.updateDeployment e s).1.currentStage =
        (if e.ewmaDistance ≠ F.val (-999) ∧ F.geB e.ewmaDistance s.targetDistance30 = true
         then DM.Stage.hold30 else DM.Stage.wait30)) ∧
    (s.currentStage = DM.Stage.wait75 →
      (DM.updateDeployment e s).1.currentStage =
        (if e.ewmaDistance ≠ F.val (-999) ∧ F.geB e.ewmaDistance s.targetDistance75 = true
         then DM.Stage.hold75 else DM.Stage.wait75)) := by
  refine ⟨?_, ?_, ?_⟩ <;> intro hstage <;>
    simp only [DM.updateDeployment, hstage, hrun, Bool.not_true, Bool.false_eq_true,
      if_false] <;>
    split_ifs <;>
    simp_all [DM.transitionTo]

/-- Witness for the amended C5 at a WAIT_TIGHT tick with the distance
available and past the target. -/
theorem deployment_wait_advance_iff_distance_witness :
    (⟨DM.Stage.waitTight, true, false, false, false, 0, 0, 0, 0, 0,
        F.val 5, F.val 0, F.val 0, 0, 0, false, false, 0⟩ : DM.DMState).isRunning = true ∧
    ((⟨DM.Stage.waitTight, true, false, false, false, 0, 0, 0, 0, 0,
        F.val 5, F.val 0, F.val 0, 0, 0, false, false, 0⟩ : DM.DMState).currentStage
        = DM.Stage.waitTight →
      (DM.updateDeployment ⟨0, 0, F.val 6, false⟩
        ⟨DM.Stage.waitTight, true, false, false, false, 0, 0, 0, 0, 0,
          F.val 5, F.val 0, F.val 0, 0, 0, false, false, 0⟩).1.currentStage =
        (if (⟨0, 0, F.val 6, false⟩ : DM.DMEnv).ewmaDistance ≠ F.val (-999) ∧
            F.geB (⟨0, 0, F.val 6, false⟩ : DM.DMEnv).ewmaDistance (F.val 5) = true
         then DM.Stage.holdDrop else DM.Stage.waitTight)) :=
  ⟨rfl,
   (deployment_wait_advance_iff_distance ⟨0, 0, F.val 6, false⟩
     ⟨DM.Stage.waitTight, true, false, false, false, 0, 0, 0, 0, 0,
       F.val 5, F.val 0, F.val 0, 0, 0, false, false, 0⟩ rfl).1⟩

/-- C6 counterexample: the deployment plan is NOT computed from the
tide-adjusted depth (and `start()` accepts no scope-ratio parameter).  With a
raw depth reading of 10 m, tide-now 1 m and tide-high 2 m, the tide-adjusted
depth is 11 m, so the claimed formula gives `anchorDepth = tideAdjustedDepth +
bowHeight = 13`; but `DeploymentManager::start` reads only the raw depth
listener (it takes no tide inputs at all) and computes `anchorDepth = 12`. -/
theorem deployment_plan_tide_counterexample :
    (DM.start (fun x => x) (F.val 10) (F.val 0) DM.dmInit).anchorDepth = 12 ∧
    CC.getTideAdjustedDepth (F.val 10) (F.val 1) (F.val 2) + CC.BOW_HEIGHT_M = 13 ∧
    (12 : ℚ) ≠ 13 := by
  refine ⟨?_, ?_, by norm_num⟩
  · norm_num [DM.start, DM.isAutoAnchorValid, DM.dmInit]
  · norm_num [CC.getTideAdjustedDepth, CC.getCurrentDepth, CC.getTideHeight, CC.BOW_HEIGHT_M]

/-- C6 amended: for every `DeploymentManager::start` with a valid depth
reading `d` (finite, 3-45 m) while not already running, the computed plan
satisfies: `targetDropDepth = d + 4`, `anchorDepth = d + 2` (raw depth plus
the 2 m bow height, NOT tide-adjusted), `totalChainLength = 5 × anchorDepth`
(the scope factor is the fixed literal 5; `start()` accepts no scopeRatio and
performs no [3,10] clamping), the 10 m floor on `totalChainLength` never
binds for a valid depth, and the two intermediate stage targets are 40% and
80% of `totalChainLength`. -/
theorem deployment_plan_equations (sq : ℚ → ℚ) (wind : F) (d : ℚ) (s : DM.DMState)
    (hrun : s.isRunning = false) (hd3 : 3 ≤ d) (hd45 : d ≤ 45) :
    (DM.start sq (F.val d) wind s).targetDropDepth = d + 4 ∧
    (DM.start sq (F.val d) wind s).anchorDepth = d + 2 ∧
    (DM.start sq (F.val d) wind s).totalChainLength = 5 * (d + 2) ∧
    10 ≤ (DM.start sq (F.val d) wind s).totalChainLength ∧
    (DM.start sq (F.val d) wind s).chain30
      = (40/100) * (DM.start sq (F.val d) wind s).totalChainLength ∧
    (DM.start sq (F.val d) wind s).chain75
      = (80/100) * (DM.start sq (F.val d) wind s).totalChainLength ∧
    (DM.start sq (F.val d) wind s).currentStage = DM.Stage.drop ∧
    (DM.start sq (F.val d) wind s).isRunning = true := by
  have hvalid : DM.isAutoAnchorValid (F.val d) = true := by
    simp only [DM.isAutoAnchorValid]
    rw [if_neg (by linarith : ¬ d < 3), if_neg (by linarith : ¬ d > 45)]
  have hnofloor : ¬ (5 * (d + 4 - 2) < 10) := by linarith
  have hnoneg : ¬ (d + 4 - 2 < 0) := by linarith
  simp only [DM.start, hrun, Bool.false_eq_true, hvalid, Bool.true_eq_false, if_false,
    if_neg hnofloor, if_neg hnoneg]
  refine ⟨?_, ?_, ?_, ?_, ?_, ?_, ?_, ?_⟩
  · trivial
  · ring_nf
  · ring_nf
  · linarith
  · ring_nf
  · ring_nf
  · trivial
  · trivial

/-- Witness for the amended C6 at depth 10 m. -/
theorem deployment_plan_equations_witness :
    DM.dmInit.isRunning = false ∧ ((3 : ℚ) ≤ 10) ∧ ((10 : ℚ) ≤ 45) ∧
    (DM.start (fun _ => 0) (F.val 10) (F.val 0) DM.dmInit).totalChainLength = 5 * (10 + 2) :=
  ⟨rfl, by norm_num, by norm_num,
   (deployment_plan_equations (fun _ => 0) (F.val 0) 10 DM.dmInit rfl
     (by norm_num) (by norm_num)).2.2.1⟩

/-- C8: For every call to the deployment sequencer's `start` while the depth
reading is NaN, Inf, below 3 m or above 45 m, the sequencer refuses to start:
the entire state is unchanged (so it stays Idle if it was Idle, nothing is
scheduled, and since `start` is the only code running, no actuator command is
issued; the failure is silent, not fatal).  The validity predicate is exactly:
finite and within [3, 45] m. -/
theorem invalid_depth_refuses_start (sq : ℚ → ℚ) (depth wind : F) (s : DM.DMState)
    (hinvalid : DM.isAutoAnchorValid depth = false) :
    DM.start sq depth wind s = s ∧
    DM.isAutoAnchorValid F.nan = false ∧
    DM.isAutoAnchorValid F.inf = false ∧
    DM.isAutoAnchorValid F.ninf = false ∧
    (∀ d : ℚ, DM.isAutoAnchorValid (F.val d) = false ↔ (d < 3 ∨ d > 45)) := by
  refine ⟨?_, rfl, rfl, rfl, ?_⟩
  · cases hb : s.isRunning
    · simp [DM.start, hb, hinvalid]
    · simp [DM.start, hb]
  · intro d
    by_cases h1 : d < 3
    · simp [DM.isAutoAnchorValid, h1]
    · by_cases h2 : d > 45
      · simp [DM.isAutoAnchorValid, h1, h2]
      · simp [DM.isAutoAnchorValid, h1, h2]

/-- Witness for C8 at an invalid 2 m depth reading. -/
theorem invalid_depth_refuses_start_witness :
    DM.isAutoAnchorValid (F.val 2) = false ∧
    DM.start (fun _ => 0) (F.val 2) (F.val 0) DM.dmInit = DM.dmInit :=
  ⟨by norm_num [DM.isAutoAnchorValid],
   (invalid_depth_refuses_start (fun _ => 0) (F.val 2) (F.val 0) DM.dmInit
     (by norm_num [DM.isAutoAnchorValid])).1⟩

/-- C9: During the retrieval sequencer's RAISING state, outside the final-pull
zone (rode ≥ depth + 10 m), a negative slack reading while the actuator is
still moving makes the very next tick force-stop the actuator (`stopChain`
command), record the tick time as `lastRaiseTime` (starting the 3 s cooldown)
and transition to WAITING_FOR_SLACK; inside the final-pull zone the
slack-based abort is disabled: while the actuator is still moving the tick
changes nothing and issues no command. -/
theorem retrieval_negative_slack_abort (e : RM.RMEnv) (s : RM.RMState)
    (hrun : s.running = true) (hst : s.state = RM.RState.raising)
    (hzone : RM.guardNanInf e.rode ≥ RM.getDepth e.depth + RM.FINAL_PULL_THRESHOLD_M)
    (hneg : RM.guardNanInf e.slack < 0) (hact : e.chainActive = true) :
    ((RM.updateRetrieval e s).1.state = RM.RState.waitingForSlack ∧
     (RM.updateRetrieval e s).1.lastRaiseTime = e.now ∧
     (RM.updateRetrieval e s).2 = some RM.RMCmd.stopChain) ∧
    (∀ e2 : RM.RMEnv,
      RM.guardNanInf e2.rode < RM.getDepth e2.depth + RM.FINAL_PULL_THRESHOLD_M →
      e2.chainActive = true →
      RM.updateRetrieval e2 s = (s, none)) := by
  constructor
  · have hcond : ¬ (RM.guardNanInf e.rode < RM.getDepth e.depth + RM.FINAL_PULL_THRESHOLD_M) ∧
        RM.guardNanInf e.slack < CC.PAUSE_SLACK_M ∧ e.chainActive = true := by
      refine ⟨not_lt.mpr hzone, ?_, hact⟩
      unfold CC.PAUSE_SLACK_M
      linarith
    simp only [RM.updateRetrieval, hrun, hst, eq_self_iff_true, not_true, if_false]
    rw [if_pos hcond]
    exact ⟨rfl, rfl, rfl⟩
  · intro e2 hz2 hact2
    have hcond2 : ¬ (¬ (RM.guardNanInf e2.rode < RM.getDepth e2.depth + RM.FINAL_PULL_THRESHOLD_M) ∧
        RM.guardNanInf e2.slack < CC.PAUSE_SLACK_M ∧ e2.chainActive = true) := by
      intro hc
      exact hc.1 hz2
    simp only [RM.updateRetrieval, hrun, hst, eq_self_iff_true, not_true, if_false]
    rw [if_neg hcond2, if_neg (by simp [hact2])]

/-- Witness for C9: rode 50 m, depth 5 m, slack -1 m, actuator active. -/
theorem retrieval_negative_slack_abort_witness :
    (⟨RM.RState.raising, true, false, 0⟩ : RM.RMState).running = true ∧
    RM.guardNanInf (⟨1000, F.val 50, F.val 5, F.val (-1), true⟩ : RM.RMEnv).rode
      ≥ RM.getDepth (⟨1000, F.val 50, F.val 5, F.val (-1), true⟩ : RM.RMEnv).depth
        + RM.FINAL_PULL_THRESHOLD_M ∧
    RM.guardNanInf (⟨1000, F.val 50, F.val 5, F.val (-1), true⟩ : RM.RMEnv).slack < 0 ∧
    ((RM.updateRetrieval ⟨1000, F.val 50, F.val 5, F.val (-1), true⟩
        ⟨RM.RState.raising, true, false, 0⟩).1.state = RM.RState.waitingForSlack ∧
     (RM.updateRetrieval ⟨1000, F.val 50, F.val 5, F.val (-1), true⟩
        ⟨RM.RState.raising, true, false, 0⟩).1.lastRaiseTime = 1000 ∧
     (RM.updateRetrieval ⟨1000, F.val 50, F.val 5, F.val (-1), true⟩
        ⟨RM.RState.raising, true, false, 0⟩).2 = some RM.RMCmd.stopChain) :=
  ⟨rfl,
   by norm_num [RM.guardNanInf, RM.getDepth, CC.getCurrentDepth, RM.FINAL_PULL_THRESHOLD_M],
   by norm_num [RM.guardNanInf],
   (retrieval_negative_slack_abort ⟨1000, F.val 50, F.val 5, F.val (-1), true⟩
     ⟨RM.RState.raising, true, false, 0⟩ rfl rfl
     (by norm_num [RM.guardNanInf, RM.getDepth, CC.getCurrentDepth, RM.FINAL_PULL_THRESHOLD_M])
     (by norm_num [RM.guardNanInf]) rfl).1⟩
